import Mathlib

/-!
# Verification of the ggez loop driver and text batch semantics

Shallow embedding of `src/src/game.rs` (the `GameState` trait and the `Game`
struct: `new`, `reload_state`, `replace_state_with`, `replace_state`, `run`)
together with the parts of the repository the claims need that are not under
`src/` (the `Context::quit` request, the configuration struct, and the
`TextBatch` fragment store), which are modelled from the specification.
-/

/-- SDL keycodes as far as `game.rs` distinguishes them: the `Escape` keycode
is matched specially; every other keycode falls into the wildcard arm. -/
inductive Keycode
  | escape
  | otherKey (code : Nat)
deriving DecidableEq, Repr

/-- Window event ids as far as `game.rs` distinguishes them: `FocusGained`
and `FocusLost` are matched; every other id falls into the wildcard arm
(`Resized` is listed separately because the spec names resize events). -/
inductive WindowEventId
  | focusGained
  | focusLost
  | resized
  | otherWindowEvent (code : Nat)
deriving DecidableEq, Repr

/-- The platform events `Game::run` matches on (`sdl2::event::Event`).
Payloads that the dispatch logic never inspects are elided; the key-down
payload keeps its `Option<Keycode>` because the dispatch branches on it.
`textInput`, the controller events and non-focus window events are kinds the
spec's taxonomy names; in `game.rs` they reach only the wildcard arm. -/
inductive Event
  | quit
  | keyDown (keycode : Option Keycode)
  | keyUp
  | mouseButtonDown
  | mouseButtonUp
  | mouseMotion
  | mouseWheel
  | window (win_event_id : WindowEventId)
  | textInput
  | controllerButtonDown
  | controllerButtonUp
  | controllerAxisMotion
deriving DecidableEq, Repr

/-- Modelled from the spec: the error taxonomy of section 7 (`GameError` in
the crate root, which is not under `src/`): config, load, update/draw and
resource errors. -/
inductive GameError
  | configError (msg : String)
  | loadError (msg : String)
  | updateError (msg : String)
  | drawError (msg : String)
  | resourceError (msg : String)
deriving DecidableEq, Repr

/-- An observable callback invocation on the game state, named after the
`GameState` trait methods of `game.rs`. The trace of a run records these in
invocation order. -/
inductive Cb
  | key_down_event (e : Event)
  | key_up_event (e : Event)
  | mouse_button_down_event (e : Event)
  | mouse_button_up_event (e : Event)
  | mouse_motion_event (e : Event)
  | mouse_wheel_event (e : Event)
  | focus (gained : Bool)
  | update
  | draw
  | quit
deriving DecidableEq, Repr

/-- True exactly for the event-dispatch callbacks of the `GameState`
trait, `false` for `update`, `draw` and the terminal `quit` callback. -/
def Cb.isEventCb : Cb → Bool
  | .key_down_event _ => true
  | .key_up_event _ => true
  | .mouse_button_down_event _ => true
  | .mouse_button_up_event _ => true
  | .mouse_motion_event _ => true
  | .mouse_wheel_event _ => true
  | .focus _ => true
  | .update => false
  | .draw => false
  | .quit => false

/-- The `GameState` trait of `game.rs`, §29–63: a state type `σ` with the
required `update`/`draw` (fallible, mutating the state) and the event
callbacks (infallible, mutating the state).  `load` is passed separately to
the `Game` operations because Rust resolves it on the type, not on a value.
The timer delta passed to `update` is not modelled: no claim inspects it. -/
structure StateImpl (σ : Type) where
  update : σ → Except GameError σ
  draw : σ → Except GameError σ
  key_down_event : σ → Event → σ
  key_up_event : σ → Event → σ
  mouse_button_down_event : σ → Event → σ
  mouse_button_up_event : σ → Event → σ
  mouse_motion_event : σ → Event → σ
  mouse_wheel_event : σ → Event → σ
  focus : σ → Bool → σ
  quit : σ → σ

/-- Modelled from the spec: `Context::quit` (in `context.rs`, not under
`src/`) requests a driver-level quit; the spec says the cancel key "triggers
driver-level quit directly" and that quit is "observed only at the top of
the event-drain step" as a platform Quit event.  It pushes a `Quit` event
onto the platform event queue, which the event pump will drain. -/
def ctxQuit (pending : List Event) : List Event :=
  pending ++ [Event.quit]

/-- Result of draining the event queue in one iteration of `Game::run`:
the state after dispatch, the `done` flag, and the trace of callback
invocations in order. -/
structure DrainOut (σ : Type) where
  st : σ
  done : Bool
  tr : List Cb
deriving Repr

/-- True for a key-down event whose keycode is `Some(Escape)`. -/
def escDown : Event → Bool
  | .keyDown (some .escape) => true
  | _ => false

/-- The event-drain loop of `Game::run` (`game.rs` lines 148–181): each
pending event is matched.  `Quit` sets `done`; a key-down with keycode
`Some(Escape)` calls `ctx.quit()` (which enqueues a `Quit` event) and does
not reach the state; every other key-down, the key-up, mouse and focus
events go to their callback; all remaining kinds hit the wildcard arm and
are dropped. -/
def drain {σ : Type} (impl : StateImpl σ) : List Event → σ → Bool → DrainOut σ
  | [], s, done => ⟨s, done, []⟩
  | e :: rest, s, done =>
    match e with
    | .quit => drain impl rest s true
    | .keyDown kc =>
      match kc with
      | some .escape => drain impl (ctxQuit rest) s done
      | _ =>
        let d := drain impl rest (impl.key_down_event s (Event.keyDown kc)) done
        ⟨d.st, d.done, Cb.key_down_event (Event.keyDown kc) :: d.tr⟩
    | .keyUp =>
      let d := drain impl rest (impl.key_up_event s Event.keyUp) done
      ⟨d.st, d.done, Cb.key_up_event Event.keyUp :: d.tr⟩
    | .mouseButtonDown =>
      let d := drain impl rest (impl.mouse_button_down_event s Event.mouseButtonDown) done
      ⟨d.st, d.done, Cb.mouse_button_down_event Event.mouseButtonDown :: d.tr⟩
    | .mouseButtonUp =>
      let d := drain impl rest (impl.mouse_button_up_event s Event.mouseButtonUp) done
      ⟨d.st, d.done, Cb.mouse_button_up_event Event.mouseButtonUp :: d.tr⟩
    | .mouseMotion =>
      let d := drain impl rest (impl.mouse_motion_event s Event.mouseMotion) done
      ⟨d.st, d.done, Cb.mouse_motion_event Event.mouseMotion :: d.tr⟩
    | .mouseWheel =>
      let d := drain impl rest (impl.mouse_wheel_event s Event.mouseWheel) done
      ⟨d.st, d.done, Cb.mouse_wheel_event Event.mouseWheel :: d.tr⟩
    | .window .focusGained =>
      let d := drain impl rest (impl.focus s true) done
      ⟨d.st, d.done, Cb.focus true :: d.tr⟩
    | .window .focusLost =>
      let d := drain impl rest (impl.focus s false) done
      ⟨d.st, d.done, Cb.focus false :: d.tr⟩
    | .window (.resized) => drain impl rest s done
    | .window (.otherWindowEvent _) => drain impl rest s done
    | .textInput => drain impl rest s done
    | .controllerButtonDown => drain impl rest s done
    | .controllerButtonUp => drain impl rest s done
    | .controllerAxisMotion => drain impl rest s done
termination_by es _ _ => es.length + es.countP escDown
decreasing_by
  all_goals simp_all [ctxQuit, List.countP_append, escDown, List.countP_cons]
  all_goals omega

/-- Outcome of `Game::run` on a finite schedule of per-iteration event
batches: `ok` is `run` returning `Ok(())` after the terminal `quit`
callback, `err` is an early return through `try!`, and `pending` means the
schedule was exhausted while the loop would keep iterating.  Each carries
the trace of callback invocations. -/
inductive RunResult (σ : Type)
  | ok (s : σ) (tr : List Cb)
  | err (e : GameError) (tr : List Cb)
  | pending (s : σ) (tr : List Cb)
deriving Repr

/-- The callback trace of a run outcome. -/
def RunResult.traceOf {σ : Type} : RunResult σ → List Cb
  | .ok _ tr => tr
  | .err _ tr => tr
  | .pending _ tr => tr

/-- Prefix a run outcome's trace with the callbacks of an earlier
iteration. -/
def RunResult.addTrace {σ : Type} (pre : List Cb) : RunResult σ → RunResult σ
  | .ok s tr => .ok s (pre ++ tr)
  | .err e tr => .err e (pre ++ tr)
  | .pending s tr => .pending s (pre ++ tr)

/-- The mainloop of `Game::run` (`game.rs` lines 144–188), driven by a
finite schedule: the k-th list is what the event pump yields in iteration
k.  Each iteration ticks the timer (not modelled: no claim inspects it),
drains and dispatches all pending events with `done` entering as `false`,
then invokes `update` and, if it succeeded, `draw`, propagating either
failure as an early error return.  If `done` was set the loop exits, the
terminal `quit` callback runs and the run returns success. -/
def run {σ : Type} (impl : StateImpl σ) (s : σ) : List (List Event) → RunResult σ
  | [] => .pending s []
  | es :: rest =>
    let d := drain impl es s false
    match impl.update d.st with
    | .error e => .err e (d.tr ++ [Cb.update])
    | .ok s2 =>
      match impl.draw s2 with
      | .error e => .err e (d.tr ++ [Cb.update, Cb.draw])
      | .ok s3 =>
        if d.done then .ok (impl.quit s3) (d.tr ++ [Cb.update, Cb.draw, Cb.quit])
        else (run impl s3 rest).addTrace (d.tr ++ [Cb.update, Cb.draw])

/-- Modelled from the spec: the configuration struct (`conf.rs`, not under
`src/`), with the recognized fields of section 6: window title, window
dimensions, resizability, backend-selection hints.  Numeric payloads are
abstracted to `Nat`. -/
structure Conf where
  window_title : String
  window_width : Nat
  window_height : Nat
  resizable : Bool
  backend_hint : String
deriving DecidableEq, Repr

/-- Modelled from the spec: the opaque `Context` handle (`context.rs`, not
under `src/`) bundling graphics/font/timer state.  Its contents are
abstracted to a single value that callbacks may mutate through their
`&mut Context` borrow. -/
structure Context where
  data : Nat
deriving DecidableEq, Repr

/-- Modelled from the spec: the filesystem abstraction (`filesystem.rs`,
not under `src/`) as far as `get_default_config` consults it: whether
`conf.toml` exists, and, when it does, the combined outcome of opening and
TOML-parsing it. -/
structure Filesystem where
  conf_file : Option (Except GameError Conf)

/-- The function `get_default_config` of `game.rs` lines 79–89: if `conf.toml` exists,
open and parse it, propagating either failure via `try!`; otherwise return
a `ConfigError`. -/
def get_default_config (fs : Filesystem) : Except GameError Conf :=
  match fs.conf_file with
  | some r => r
  | none => Except.error (GameError.configError "Config file not found")

/-- Rust `Result::unwrap_or`: the success value, or the given default on any
error. -/
def unwrapOr {ε α : Type} : Except ε α → α → α
  | .ok a, _ => a
  | .error _, dflt => dflt

/-- The `Game` struct of `game.rs` lines 70–74: the resolved config, the
current state and the context. -/
structure Game (σ : Type) where
  conf : Conf
  state : σ
  context : Context
deriving Repr

/-- The type of `GameState::load` (and of the factory handed to
`replace_state_with`): it receives `&mut Context` and `&Conf`, so it
returns the possibly mutated context together with the fallible new state;
mutations made before a failure persist. -/
def LoadFn (σ : Type) : Type := Context → Conf → Context × Except GameError σ

/-- Constructor `Game::new` (`game.rs` lines 96–114): resolve the config from
`get_default_config`, falling back to `default_config` on any failure
(`unwrap_or`); construct the context from the resolved config (external
`Context::from_conf`, passed as `fc`); invoke `load` on the fresh context
and the resolved config, propagating its failure; on success bundle the
three.  `sdl2::init()` and `Filesystem::new()` are external fallible setup
whose failures no claim concerns; the filesystem is passed in. -/
def Game.new {σ : Type} (fc : Conf → Except GameError Context) (ld : LoadFn σ)
    (fs : Filesystem) (default_config : Conf) : Except GameError (Game σ) :=
  let config := unwrapOr (get_default_config fs) default_config
  match fc config with
  | .error e => .error e
  | .ok context =>
    match ld context config with
    | (_, .error e) => .error e
    | (ctx2, .ok init_state) =>
      .ok { conf := config, state := init_state, context := ctx2 }

/-- Method `Game::reload_state` (`game.rs` lines 117–121): invoke `load` on the
current context and the stored config; on failure return the error (the
state and config fields are untouched, the context keeps whatever the
callback wrote through its borrow); on success install the new state. -/
def Game.reload_state {σ : Type} (ld : LoadFn σ) (g : Game σ) :
    Game σ × Except GameError Unit :=
  match ld g.context g.conf with
  | (ctx2, .error e) => ({ g with context := ctx2 }, .error e)
  | (ctx2, .ok newstate) => ({ g with context := ctx2, state := newstate }, .ok ())

/-- Method `Game::replace_state_with` (`game.rs` lines 125–130): like
`reload_state` but with a caller-supplied factory. -/
def Game.replace_state_with {σ : Type} (f : LoadFn σ) (g : Game σ) :
    Game σ × Except GameError Unit :=
  match f g.context g.conf with
  | (ctx2, .error e) => ({ g with context := ctx2 }, .error e)
  | (ctx2, .ok newstate) => ({ g with context := ctx2, state := newstate }, .ok ())

/-- Method `Game::replace_state` (`game.rs` lines 134–136): direct infallible
replacement of the state field. -/
def Game.replace_state {σ : Type} (s : σ) (g : Game σ) : Game σ :=
  { g with state := s }

/-- A prior mutation of the game: one `replace_state` or
`replace_state_with` call (claim C5 quantifies over sequences of these). -/
inductive StateOp (σ : Type)
  | replace (s : σ)
  | replaceWith (f : LoadFn σ)

/-- Apply one prior mutation; the fallible factory's outcome is applied as
`replace_state_with` leaves the game. -/
def applyOp {σ : Type} (g : Game σ) : StateOp σ → Game σ
  | .replace s => Game.replace_state s g
  | .replaceWith f => (Game.replace_state_with f g).1

/-- Apply a sequence of prior mutations in order. -/
def applyOps {σ : Type} (g : Game σ) (ops : List (StateOp σ)) : Game σ :=
  ops.foldl applyOp g

/-- Modelled from the spec: an RGBA color (float channels abstracted to
`Nat`); the text-batch layer only stores and compares it. -/
structure Color where
  r : Nat
  g : Nat
  b : Nat
  a : Nat
deriving DecidableEq, Repr

/-- Modelled from the spec: an opaque handle to a loaded font. -/
structure FontId where
  id : Nat
deriving DecidableEq, Repr

/-- Modelled from the spec: a glyph scale (float components abstracted to
`Nat`). -/
structure Scale where
  x : Nat
  y : Nat
deriving DecidableEq, Repr

/-- Modelled from the spec: horizontal alignment of a text batch. -/
inductive Align
  | left
  | center
  | right
deriving DecidableEq, Repr

/-- Modelled from the spec: `TextFragment` (graphics/textbatch, not under
`src/`): a string plus optional style overrides which, when unset, inherit
the owning batch's defaults. -/
structure TextFragment where
  text : String
  color : Option Color
  font_id : Option FontId
  scale : Option Scale
deriving DecidableEq, Repr

/-- Constructor `TextFragment::new`: all style fields unset. -/
def TextFragment.new (text : String) : TextFragment :=
  { text := text, color := none, font_id := none, scale := none }

/-- Modelled from the spec: `TextBatch` (graphics/textbatch, not under
`src/`): an ordered fragment sequence with batch defaults, an optional
wrap box with alignment, and a lazily recomputed layout cache (its
geometry abstracted to `Nat`) invalidated on any mutation. -/
structure TextBatch where
  fragments : List TextFragment
  default_font : FontId
  default_scale : Scale
  bounds : Option (Nat × Nat)
  alignment : Align
  layout_cache : Option Nat
deriving DecidableEq, Repr

/-- Constructor `TextBatch::new_empty`: no fragments, baked-in defaults, no bounds. -/
def TextBatch.new_empty : TextBatch :=
  { fragments := [], default_font := { id := 0 }, default_scale := { x := 16, y := 16 },
    bounds := none, alignment := Align.left, layout_cache := none }

/-- Constructor `TextBatch::new`: a batch holding the one initial fragment (a raw
string argument is first wrapped by `TextFragment.new`). -/
def TextBatch.new (f : TextFragment) : TextBatch :=
  { TextBatch.new_empty with fragments := [f] }

/-- Method `TextBatch::add_fragment`: appends the fragment (a raw string argument
is first wrapped by `TextFragment.new`) and invalidates the layout cache;
chainable. -/
def TextBatch.add_fragment (tb : TextBatch) (f : TextFragment) : TextBatch :=
  { tb with fragments := tb.fragments ++ [f], layout_cache := none }

/-- Method `TextBatch::fragments_mut`: the mutable slice of contained fragments,
indexed in order of their addition starting at 0. -/
def TextBatch.fragments_mut (tb : TextBatch) : List TextFragment :=
  tb.fragments

/-- A whole sequence of `add_fragment` calls, in order. -/
def TextBatch.addFragments (tb : TextBatch) (fs : List TextFragment) : TextBatch :=
  fs.foldl TextBatch.add_fragment tb

/-- A concrete instrumented game state over `Nat` whose callbacks all
succeed; used to evaluate the loop driver at concrete inputs. -/
def probeImpl : StateImpl Nat :=
  { update := fun n => .ok (n + 1)
  , draw := fun n => .ok n
  , key_down_event := fun n _ => n + 10
  , key_up_event := fun n _ => n + 20
  , mouse_button_down_event := fun n _ => n + 30
  , mouse_button_up_event := fun n _ => n + 40
  , mouse_motion_event := fun n _ => n + 50
  , mouse_wheel_event := fun n _ => n + 60
  , focus := fun n _ => n + 70
  , quit := fun n => n + 100 }

/-- A concrete game state over `Nat` whose `update` always fails; used to
evaluate the error path of the loop driver. -/
def failingImpl : StateImpl Nat :=
  { probeImpl with update := fun _ => .error (GameError.updateError "boom") }

/-- A concrete configuration used as caller-supplied default in
witnesses. -/
def confA : Conf :=
  { window_title := "A", window_width := 640, window_height := 480,
    resizable := false, backend_hint := "gl" }

/-- A second concrete configuration, distinct from `confA`. -/
def confB : Conf :=
  { window_title := "B", window_width := 800, window_height := 600,
    resizable := true, backend_hint := "vk" }

/-- A concrete `load` over `Nat` that succeeds and marks the context. -/
def okLoad : LoadFn Nat :=
  fun c _ => ({ data := c.data + 1 }, .ok (c.data + 5))

/-- A concrete `load` over `Nat` that mutates the context through its
borrow and then fails. -/
def mutatingFailLoad : LoadFn Nat :=
  fun c _ => ({ data := c.data + 7 }, .error (GameError.loadError "nope"))

/-- A concrete always-succeeding `Context::from_conf` stand-in. -/
def fc0 : Conf → Except GameError Context :=
  fun _ => .ok { data := 0 }

/-- A concrete game value used to evaluate `reload_state` and
`replace_state_with` at concrete inputs. -/
def g10 : Game Nat :=
  { conf := confA, state := 3, context := { data := 0 } }

/-- True for the events that set the driver's `done` flag once drained:
a platform `Quit`, or the cancel key-down (which enqueues a `Quit` that the
same drain consumes). -/
def quitting (e : Event) : Bool :=
  e = Event.quit || escDown e

/-- The drain leaves `done` set iff it entered set or some drained event
was a `Quit` or the cancel key-down. -/
theorem drain_done_eq {σ : Type} (impl : StateImpl σ) (es : List Event) (s : σ)
    (done : Bool) :
    (drain impl es s done).done = (done || es.any quitting) := by
  induction es, s, done using drain.induct impl <;>
    simp_all [drain, quitting, escDown, ctxQuit]

/-- Every entry the drain puts in the trace is an event-dispatch callback:
the drain never records `update`, `draw` or the terminal `quit`. -/
theorem drain_tr_eventCb {σ : Type} (impl : StateImpl σ) (es : List Event) (s : σ)
    (done : Bool) :
    ∀ c ∈ (drain impl es s done).tr, c.isEventCb = true := by
  induction es, s, done using drain.induct impl <;>
    simp_all [drain, Cb.isEventCb]

/-- The cancel key-down is never forwarded: no trace entry is a key-down
callback carrying the Escape keycode. -/
theorem drain_esc_not_forwarded {σ : Type} (impl : StateImpl σ) (es : List Event)
    (s : σ) (done : Bool) :
    Cb.key_down_event (Event.keyDown (some Keycode.escape)) ∉ (drain impl es s done).tr := by
  induction es, s, done using drain.induct impl <;>
    simp_all [drain, eq_comm]

/-- Every non-cancel key-down is forwarded exactly as often as it occurs:
the key-down callback for keycode `kc ≠ Some(Escape)` appears in the trace
once per occurrence of that key-down event in the queue. -/
theorem drain_keydown_count {σ : Type} (impl : StateImpl σ) (es : List Event)
    (s : σ) (done : Bool) (kc : Option Keycode) (h : kc ≠ some Keycode.escape) :
    (drain impl es s done).tr.count (Cb.key_down_event (Event.keyDown kc))
      = es.count (Event.keyDown kc) := by
  induction es, s, done using drain.induct impl <;>
    simp_all [drain, ctxQuit, List.count_cons, List.count_append]

/-- The terminal `quit` callback never appears in a drain trace. -/
theorem drain_quit_not_mem {σ : Type} (impl : StateImpl σ) (es : List Event) (s : σ)
    (done : Bool) : Cb.quit ∉ (drain impl es s done).tr := by
  intro h
  have := drain_tr_eventCb impl es s done Cb.quit h
  simp [Cb.isEventCb] at this

/-- Callback `update` never appears in a drain trace. -/
theorem drain_update_not_mem {σ : Type} (impl : StateImpl σ) (es : List Event) (s : σ)
    (done : Bool) : Cb.update ∉ (drain impl es s done).tr := by
  intro h
  have := drain_tr_eventCb impl es s done Cb.update h
  simp [Cb.isEventCb] at this

/-- Callback `draw` never appears in a drain trace. -/
theorem drain_draw_not_mem {σ : Type} (impl : StateImpl σ) (es : List Event) (s : σ)
    (done : Bool) : Cb.draw ∉ (drain impl es s done).tr := by
  intro h
  have := drain_tr_eventCb impl es s done Cb.draw h
  simp [Cb.isEventCb] at this

/-- Prefixing a run outcome's trace prefixes its `traceOf`. -/
theorem traceOf_addTrace {σ : Type} (pre : List Cb) (r : RunResult σ) :
    (RunResult.addTrace pre r).traceOf = pre ++ r.traceOf := by
  cases r <;> rfl

/-- Across a whole run, the key-down callback is never invoked with the
cancel (Escape) key-down event, in any iteration. -/
theorem run_esc_not_forwarded {σ : Type} (impl : StateImpl σ) (sched : List (List Event))
    (s : σ) :
    Cb.key_down_event (Event.keyDown (some Keycode.escape)) ∉ (run impl s sched).traceOf := by
  induction sched generalizing s with
  | nil => simp [run, RunResult.traceOf]
  | cons es rest ih =>
    simp only [run]
    split
    · simp [RunResult.traceOf, drain_esc_not_forwarded impl es s false]
    · split
      · simp [RunResult.traceOf, drain_esc_not_forwarded impl es s false]
      · split
        · simp [RunResult.traceOf, drain_esc_not_forwarded impl es s false]
        · rw [traceOf_addTrace]
          simp [drain_esc_not_forwarded impl es s false, ih]

/-- One `replace_state` or `replace_state_with` never touches the stored
configuration. -/
theorem applyOp_conf {σ : Type} (g : Game σ) (op : StateOp σ) :
    (applyOp g op).conf = g.conf := by
  cases op with
  | replace s => rfl
  | replaceWith f =>
    simp only [applyOp, Game.replace_state_with]
    rcases h : f g.context g.conf with ⟨ctx2, r⟩
    cases r <;> rfl

/-- No sequence of `replace_state` / `replace_state_with` calls touches the
stored configuration. -/
theorem applyOps_conf {σ : Type} (g : Game σ) (ops : List (StateOp σ)) :
    (applyOps g ops).conf = g.conf := by
  induction ops generalizing g with
  | nil => rfl
  | cons op rest ih =>
    simp only [applyOps, List.foldl_cons] at *
    rw [ih (applyOp g op), applyOp_conf]

/-- On success, `Game::new` resolves the configuration with `unwrap_or`
over `get_default_config` and stores it. -/
theorem new_conf {σ : Type} (fc : Conf → Except GameError Context) (ld : LoadFn σ)
    (fs : Filesystem) (dc : Conf) (g0 : Game σ) (h : Game.new fc ld fs dc = .ok g0) :
    g0.conf = unwrapOr (get_default_config fs) dc := by
  simp only [Game.new] at h
  split at h
  · exact absurd h (by simp)
  · split at h
    · exact absurd h (by simp)
    · simp only [Except.ok.injEq] at h
      rw [← h]

/-- A `foldl` of `add_fragment` appends the added fragments in order. -/
theorem addFragments_fragments (tb : TextBatch) (fs : List TextFragment) :
    (TextBatch.addFragments tb fs).fragments = tb.fragments ++ fs := by
  induction fs generalizing tb with
  | nil => simp [TextBatch.addFragments]
  | cons f rest ih =>
    simp only [TextBatch.addFragments, List.foldl_cons] at *
    rw [ih]
    simp [TextBatch.add_fragment]

/-- If some drained event is a `Quit` or the cancel key-down, the drain
leaves `done` set. -/
theorem drain_done_of_mem {σ : Type} (impl : StateImpl σ) (es : List Event) (s : σ)
    (done : Bool) (e : Event) (he : e ∈ es) (hq : quitting e = true) :
    (drain impl es s done).done = true := by
  rw [drain_done_eq]
  have : es.any quitting = true := by
    rw [List.any_eq_true]
    exact ⟨e, he, hq⟩
  simp [this]

/-- When the drain of an iteration set `done` and that iteration's
`update` and `draw` succeed, the loop exits: the run returns `Ok` with the
terminal `quit` callback last, ignoring the rest of the schedule. -/
theorem run_done_exit {σ : Type} (impl : StateImpl σ) (es : List Event)
    (rest : List (List Event)) (s s2 s3 : σ)
    (hdone : (drain impl es s false).done = true)
    (hu : impl.update (drain impl es s false).st = .ok s2)
    (hd : impl.draw s2 = .ok s3) :
    run impl s (es :: rest)
      = .ok (impl.quit s3) ((drain impl es s false).tr ++ [Cb.update, Cb.draw, Cb.quit]) := by
  simp [run, hu, hd, hdone]

/-- Claim C1: in `Game::run`, a key-down whose keycode is `Some(Escape)`
triggers the driver-level quit — the enqueued `Quit` is consumed by the
same drain, setting the loop's `done` flag, so the run finishes that
iteration's update/draw and returns — and is never delivered to the
state's `key_down_event` callback in any iteration; a key-down with any
other keycode (another key, or an absent keycode) is forwarded to
`key_down_event` once per occurrence. -/
theorem c1_cancel_key_intercepted_others_forwarded {σ : Type} (impl : StateImpl σ)
    (sched : List (List Event)) (es : List Event) (sr : List (List Event)) (s : σ)
    (done : Bool) (kc : Option Keycode) (s2 s3 : σ) :
    Cb.key_down_event (Event.keyDown (some Keycode.escape)) ∉ (run impl s sched).traceOf
    ∧ (Event.keyDown (some Keycode.escape) ∈ es → (drain impl es s done).done = true)
    ∧ (Event.keyDown (some Keycode.escape) ∈ es →
        impl.update (drain impl es s false).st = .ok s2 →
        impl.draw s2 = .ok s3 →
        run impl s (es :: sr)
          = .ok (impl.quit s3) ((drain impl es s false).tr ++ [Cb.update, Cb.draw, Cb.quit]))
    ∧ (kc ≠ some Keycode.escape →
        (drain impl es s done).tr.count (Cb.key_down_event (Event.keyDown kc))
          = es.count (Event.keyDown kc)) := by
  refine ⟨run_esc_not_forwarded impl sched s, ?_, ?_, ?_⟩
  · intro he
    exact drain_done_of_mem impl es s done _ he (by simp [quitting, escDown])
  · intro he hu hd
    exact run_done_exit impl es sr s s2 s3
      (drain_done_of_mem impl es s false _ he (by simp [quitting, escDown])) hu hd
  · exact drain_keydown_count impl es s done kc

/-- Witness for C1 at concrete inputs: a run whose only event is the
Escape key-down quits with no key-down callback, and a key-down with an
absent keycode is forwarded once. -/
theorem c1_witness :
    run probeImpl (0 : Nat) [[Event.keyDown (some Keycode.escape)]]
      = RunResult.ok (probeImpl.quit 1)
          ((drain probeImpl [Event.keyDown (some Keycode.escape)] (0 : Nat) false).tr
            ++ [Cb.update, Cb.draw, Cb.quit])
    ∧ (drain probeImpl [Event.keyDown none] (0 : Nat) false).tr.count
        (Cb.key_down_event (Event.keyDown none))
        = [Event.keyDown none].count (Event.keyDown none) := by
  constructor
  · exact (c1_cancel_key_intercepted_others_forwarded probeImpl []
      [Event.keyDown (some Keycode.escape)] [] (0 : Nat) false none 1 1).2.2.1
      (by simp) (by simp [drain, ctxQuit, probeImpl]) (by simp [probeImpl])
  · exact (c1_cancel_key_intercepted_others_forwarded probeImpl []
      [Event.keyDown none] [] (0 : Nat) false none 0 0).2.2.2 (by simp)

/-- Claim C2: a `Quit` event observed while draining an iteration's events
still lets that iteration invoke `update` and then `draw` (here: both
succeed); after that the loop exits — the rest of the schedule is ignored
— the terminal `quit` callback is invoked exactly once, and `run` returns
success. -/
theorem c2_quit_event_finishes_tick_then_exits {σ : Type} (impl : StateImpl σ)
    (es : List Event) (rest : List (List Event)) (s s2 s3 : σ)
    (hq : Event.quit ∈ es)
    (hu : impl.update (drain impl es s false).st = .ok s2)
    (hd : impl.draw s2 = .ok s3) :
    run impl s (es :: rest)
      = .ok (impl.quit s3) ((drain impl es s false).tr ++ [Cb.update, Cb.draw, Cb.quit])
    ∧ ((drain impl es s false).tr ++ [Cb.update, Cb.draw, Cb.quit]).count Cb.quit = 1 := by
  constructor
  · exact run_done_exit impl es rest s s2 s3
      (drain_done_of_mem impl es s false _ hq (by simp [quitting])) hu hd
  · rw [List.count_append]
    rw [List.count_eq_zero.mpr (drain_quit_not_mem impl es s false)]
    simp

/-- Witness for C2 at a concrete input: a run whose only event is `Quit`
finishes the tick's update and draw, invokes the terminal callback once,
and returns success. -/
theorem c2_witness :
    run probeImpl (0 : Nat) [[Event.quit], [Event.keyUp]]
      = RunResult.ok (probeImpl.quit 1)
          ((drain probeImpl [Event.quit] (0 : Nat) false).tr ++ [Cb.update, Cb.draw, Cb.quit])
    ∧ ((drain probeImpl [Event.quit] (0 : Nat) false).tr
        ++ [Cb.update, Cb.draw, Cb.quit]).count Cb.quit = 1 :=
  c2_quit_event_finishes_tick_then_exits probeImpl [Event.quit] [[Event.keyUp]]
    (0 : Nat) 1 1 (by simp) (by simp [drain, probeImpl]) (by simp [probeImpl])

/-- Claim C3: every error from the state's `update` or `draw` is fatal to
`run` (the run returns that same error, attempting no retry), and every
error from `load` is fatal to `Game::new` and to `reload_state`, returned
to the caller unchanged. -/
theorem c3_update_draw_load_errors_fatal {σ τ : Type} (impl : StateImpl σ)
    (es : List Event) (rest : List (List Event)) (s s2 : σ) (e : GameError)
    (fc : Conf → Except GameError Context) (ld : LoadFn τ) (fs : Filesystem)
    (dc : Conf) (g : Game τ) (ctx ctx2 : Context) :
    (impl.update (drain impl es s false).st = .error e →
      run impl s (es :: rest) = .err e ((drain impl es s false).tr ++ [Cb.update]))
    ∧ (impl.update (drain impl es s false).st = .ok s2 → impl.draw s2 = .error e →
      run impl s (es :: rest) = .err e ((drain impl es s false).tr ++ [Cb.update, Cb.draw]))
    ∧ (fc (unwrapOr (get_default_config fs) dc) = .ok ctx →
      ld ctx (unwrapOr (get_default_config fs) dc) = (ctx2, .error e) →
      Game.new fc ld fs dc = .error e)
    ∧ (ld g.context g.conf = (ctx2, .error e) →
      Game.reload_state ld g = ({ g with context := ctx2 }, .error e)) := by
  refine ⟨?_, ?_, ?_, ?_⟩
  · intro hu
    simp [run, hu]
  · intro hu hd
    simp [run, hu, hd]
  · intro hfc hld
    simp [Game.new, hfc, hld]
  · intro hld
    simp [Game.reload_state, hld]

/-- Witness for C3 at concrete inputs: a failing `update` aborts the run
with its error, and a failing `load` aborts `Game::new` and `reload_state`
with its error. -/
theorem c3_witness :
    run failingImpl (0 : Nat) [[]]
      = RunResult.err (GameError.updateError "boom")
          ((drain failingImpl [] (0 : Nat) false).tr ++ [Cb.update])
    ∧ Game.new fc0 mutatingFailLoad { conf_file := none } confA
        = .error (GameError.loadError "nope")
    ∧ Game.reload_state mutatingFailLoad g10
        = ({ g10 with context := { data := 7 } }, .error (GameError.loadError "nope")) := by
  refine ⟨?_, ?_, ?_⟩
  · exact (c3_update_draw_load_errors_fatal failingImpl [] [] (0 : Nat) 0
      (GameError.updateError "boom") fc0 mutatingFailLoad { conf_file := none } confA g10
      { data := 0 } { data := 7 }).1 (by simp [drain, failingImpl, probeImpl])
  · exact (c3_update_draw_load_errors_fatal failingImpl [] [] (0 : Nat) 0
      (GameError.loadError "nope") fc0 mutatingFailLoad { conf_file := none } confA g10
      { data := 0 } { data := 7 }).2.2.1 rfl rfl
  · exact (c3_update_draw_load_errors_fatal failingImpl [] [] (0 : Nat) 0
      (GameError.loadError "nope") fc0 mutatingFailLoad { conf_file := none } confA g10
      { data := 0 } { data := 7 }).2.2.2 rfl

/-- Claim C9: when `run` terminates with an error from `update` or `draw`,
the terminal `quit` callback was never invoked: `quit` appears in no trace
of an erroring run, whichever iteration failed. -/
theorem c9_error_exit_skips_quit_callback {σ : Type} (impl : StateImpl σ)
    (sched : List (List Event)) :
    ∀ (s : σ) (e : GameError) (tr : List Cb),
      run impl s sched = .err e tr → Cb.quit ∉ tr := by
  induction sched with
  | nil =>
    intro s e tr h
    simp [run] at h
  | cons es rest ih =>
    intro s e tr h
    simp only [run] at h
    split at h
    · simp only [RunResult.err.injEq] at h
      rcases h with ⟨rfl, rfl⟩
      intro hmem
      rcases List.mem_append.mp hmem with h1 | h1
      · exact drain_quit_not_mem impl es s false h1
      · simp at h1
    · split at h
      · simp only [RunResult.err.injEq] at h
        rcases h with ⟨rfl, rfl⟩
        intro hmem
        rcases List.mem_append.mp hmem with h1 | h1
        · exact drain_quit_not_mem impl es s false h1
        · simp at h1
      · split at h
        · simp at h
        · rename_i s2a hua s3 hda hdone
          rcases hr : run impl s3 rest with ⟨s4, t4⟩ | ⟨e4, t4⟩ | ⟨s4, t4⟩
          · rw [hr] at h
            simp [RunResult.addTrace] at h
          · rw [hr] at h
            simp only [RunResult.addTrace, RunResult.err.injEq] at h
            rcases h with ⟨rfl, rfl⟩
            intro hmem
            rcases List.mem_append.mp hmem with h1 | h1
            · rcases List.mem_append.mp h1 with h2 | h2
              · exact drain_quit_not_mem impl es s false h2
              · simp at h2
            · exact ih s3 e4 t4 hr h1
          · rw [hr] at h
            simp [RunResult.addTrace] at h

/-- Witness for C9 at a concrete input: the run whose first `update` fails
returns an error trace not containing the terminal callback. -/
theorem c9_witness :
    Cb.quit ∉ (drain failingImpl [] (0 : Nat) false).tr ++ [Cb.update] :=
  c9_error_exit_skips_quit_callback failingImpl [[]] (0 : Nat)
    (GameError.updateError "boom") ((drain failingImpl [] (0 : Nat) false).tr ++ [Cb.update])
    (by simp [run, drain, failingImpl, probeImpl])

/-- Claim C6: in an iteration of `run`, every entry dispatched by the
event drain is an event callback and all of them precede that tick's
`update` in the trace; when `update` fails nothing follows it, and when
`update` succeeds `draw` is invoked immediately after it. -/
theorem c6_events_before_update_before_draw {σ : Type} (impl : StateImpl σ) (s : σ)
    (es : List Event) (rest : List (List Event)) (e : GameError) (s2 : σ) :
    (∀ c ∈ (drain impl es s false).tr, c.isEventCb = true)
    ∧ (impl.update (drain impl es s false).st = .error e →
        (run impl s (es :: rest)).traceOf = (drain impl es s false).tr ++ [Cb.update])
    ∧ (impl.update (drain impl es s false).st = .ok s2 →
        ∃ k, (run impl s (es :: rest)).traceOf
          = (drain impl es s false).tr ++ Cb.update :: Cb.draw :: k) := by
  refine ⟨drain_tr_eventCb impl es s false, ?_, ?_⟩
  · intro hu
    simp [run, hu, RunResult.traceOf]
  · intro hu
    rcases hd : impl.draw s2 with e2 | s3
    · exact ⟨[], by simp [run, hu, hd, RunResult.traceOf]⟩
    · by_cases hdone : (drain impl es s false).done
      · exact ⟨[Cb.quit], by simp [run, hu, hd, hdone, RunResult.traceOf]⟩
      · refine ⟨(run impl s3 rest).traceOf, ?_⟩
        simp [run, hu, hd, hdone, traceOf_addTrace]

/-- Witness for C6 at a concrete input: a tick with one key-up event
dispatches it, then update, then immediately draw. -/
theorem c6_witness :
    ∃ k, (run probeImpl (0 : Nat) [[Event.keyUp]]).traceOf
      = (drain probeImpl [Event.keyUp] (0 : Nat) false).tr ++ Cb.update :: Cb.draw :: k :=
  (c6_events_before_update_before_draw probeImpl (0 : Nat) [Event.keyUp] []
    (GameError.updateError "x") 21).2.2 (by simp [drain, probeImpl])

/-- Claim C4: an absent or unreadable/unparsable `conf.toml` is not fatal
to `Game::new`: the resolved configuration falls back to the caller's
`default_config` (field-for-field equal to it), and `new` then succeeds
whenever context construction and `load` succeed on that default. -/
theorem c4_config_fallback {σ : Type} (fs : Filesystem)
    (fc : Conf → Except GameError Context) (ld : LoadFn σ) (dc : Conf)
    (h : fs.conf_file = none ∨ ∃ e, fs.conf_file = some (.error e)) :
    unwrapOr (get_default_config fs) dc = dc
    ∧ ∀ (ctx ctx2 : Context) (st : σ), fc dc = .ok ctx → ld ctx dc = (ctx2, .ok st) →
        Game.new fc ld fs dc = .ok { conf := dc, state := st, context := ctx2 } := by
  have hconf : unwrapOr (get_default_config fs) dc = dc := by
    rcases h with h | ⟨e, h⟩ <;> simp [get_default_config, h, unwrapOr]
  refine ⟨hconf, ?_⟩
  intro ctx ctx2 st hfc hld
  simp [Game.new, hconf, hfc, hld]

/-- Witness for C4 at a concrete input: with no config file, `new`
resolves the caller-supplied default and succeeds. -/
theorem c4_witness :
    unwrapOr (get_default_config { conf_file := none }) confA = confA
    ∧ Game.new fc0 okLoad { conf_file := none } confA
        = .ok { conf := confA, state := 5, context := { data := 1 } } := by
  obtain ⟨h1, h2⟩ := c4_config_fallback { conf_file := none } fc0 okLoad confA (Or.inl rfl)
  exact ⟨h1, h2 { data := 0 } { data := 1 } 5 rfl rfl⟩

/-- Claim C5: after any sequence of `replace_state` / `replace_state_with`
calls, the stored configuration is still the one resolved during `new`, so
`reload_state` consults `load` at the current context and that original
configuration; on success it installs the returned state, the context
passing through the load borrow rather than being reconstructed. -/
theorem c5_reload_uses_current_ctx_original_conf {σ : Type}
    (fc : Conf → Except GameError Context) (ld : LoadFn σ) (fs : Filesystem) (dc : Conf)
    (g0 : Game σ) (ops : List (StateOp σ)) (h : Game.new fc ld fs dc = .ok g0) :
    (applyOps g0 ops).conf = unwrapOr (get_default_config fs) dc
    ∧ ∀ (ld2 : LoadFn σ) (ctx2 : Context) (s1 : σ),
        ld2 (applyOps g0 ops).context (unwrapOr (get_default_config fs) dc) = (ctx2, .ok s1) →
        Game.reload_state ld2 (applyOps g0 ops)
          = ({ conf := unwrapOr (get_default_config fs) dc, state := s1, context := ctx2 },
             .ok ()) := by
  have hconf : (applyOps g0 ops).conf = unwrapOr (get_default_config fs) dc := by
    rw [applyOps_conf, new_conf fc ld fs dc g0 h]
  refine ⟨hconf, ?_⟩
  intro ld2 ctx2 s1 hld
  simp [Game.reload_state, hconf, hld]

/-- Witness for C5 at concrete inputs: after a `replace_state`, reloading
still uses the config resolved at `new` and installs the reloaded state
without reconstructing the context. -/
theorem c5_witness :
    Game.reload_state okLoad
      (applyOps { conf := confA, state := 5, context := { data := 1 } } [StateOp.replace 9])
      = ({ conf := unwrapOr (get_default_config { conf_file := none }) confA,
           state := 6, context := { data := 2 } }, .ok ()) :=
  (c5_reload_uses_current_ctx_original_conf fc0 okLoad { conf_file := none } confA
    { conf := confA, state := 5, context := { data := 1 } } [StateOp.replace 9] rfl).2
    okLoad { data := 2 } 6 rfl

/-- Counterexample to C7 as stated: `text-input` is in the claimed
taxonomy, yet a run over a single text-input event invokes no
correspondingly named callback at all — its whole trace is the tick's
`update` and `draw`, neither of which is an event callback. -/
theorem c7_counterexample :
    (run probeImpl (0 : Nat) [[Event.textInput]]).traceOf = [Cb.update, Cb.draw]
    ∧ Cb.isEventCb Cb.update = false ∧ Cb.isEventCb Cb.draw = false := by
  refine ⟨?_, rfl, rfl⟩
  simp [run, drain, RunResult.traceOf, RunResult.addTrace, probeImpl]

/-- Claim C7 as amended: the taxonomy `run` actually consumes is `Quit`
(intercepted by the driver: `done` is set, no callback), key-down (the
cancel key intercepted, any other keycode dispatched to `key_down_event`),
key-up, the four mouse kinds, and window focus gained/lost — each
dispatching exactly one correspondingly named callback; every other kind
(other window events including resize, text-input, and the controller
events) is silently dropped with no callback and no state change. -/
theorem c7_amended_taxonomy {σ : Type} (impl : StateImpl σ) (s : σ)
    (kc : Option Keycode) (w : WindowEventId)
    (hkc : kc ≠ some Keycode.escape)
    (hw : w ≠ WindowEventId.focusGained ∧ w ≠ WindowEventId.focusLost) :
    drain impl [Event.quit] s false = ⟨s, true, []⟩
    ∧ drain impl [Event.keyDown (some Keycode.escape)] s false = ⟨s, true, []⟩
    ∧ drain impl [Event.keyDown kc] s false
        = ⟨impl.key_down_event s (Event.keyDown kc), false,
           [Cb.key_down_event (Event.keyDown kc)]⟩
    ∧ drain impl [Event.keyUp] s false
        = ⟨impl.key_up_event s Event.keyUp, false, [Cb.key_up_event Event.keyUp]⟩
    ∧ drain impl [Event.mouseButtonDown] s false
        = ⟨impl.mouse_button_down_event s Event.mouseButtonDown, false,
           [Cb.mouse_button_down_event Event.mouseButtonDown]⟩
    ∧ drain impl [Event.mouseButtonUp] s false
        = ⟨impl.mouse_button_up_event s Event.mouseButtonUp, false,
           [Cb.mouse_button_up_event Event.mouseButtonUp]⟩
    ∧ drain impl [Event.mouseMotion] s false
        = ⟨impl.mouse_motion_event s Event.mouseMotion, false,
           [Cb.mouse_motion_event Event.mouseMotion]⟩
    ∧ drain impl [Event.mouseWheel] s false
        = ⟨impl.mouse_wheel_event s Event.mouseWheel, false,
           [Cb.mouse_wheel_event Event.mouseWheel]⟩
    ∧ drain impl [Event.window WindowEventId.focusGained] s false
        = ⟨impl.focus s true, false, [Cb.focus true]⟩
    ∧ drain impl [Event.window WindowEventId.focusLost] s false
        = ⟨impl.focus s false, false, [Cb.focus false]⟩
    ∧ drain impl [Event.window w] s false = ⟨s, false, []⟩
    ∧ drain impl [Event.textInput] s false = ⟨s, false, []⟩
    ∧ drain impl [Event.controllerButtonDown] s false = ⟨s, false, []⟩
    ∧ drain impl [Event.controllerButtonUp] s false = ⟨s, false, []⟩
    ∧ drain impl [Event.controllerAxisMotion] s false = ⟨s, false, []⟩ := by
  refine ⟨by simp [drain], by simp [drain, ctxQuit], ?_, by simp [drain], by simp [drain],
    by simp [drain], by simp [drain], by simp [drain], by simp [drain], by simp [drain],
    ?_, by simp [drain], by simp [drain], by simp [drain], by simp [drain]⟩
  · rcases kc with _ | k
    · simp [drain]
    · cases k with
      | escape => exact absurd rfl hkc
      | otherKey c => simp [drain]
  · rcases hw with ⟨h1, h2⟩
    cases w with
    | focusGained => exact absurd rfl h1
    | focusLost => exact absurd rfl h2
    | resized => simp [drain]
    | otherWindowEvent c => simp [drain]

/-- Witness for the amended C7 at concrete inputs: a non-cancel key-down
dispatches exactly its callback; a window-resize event is dropped. -/
theorem c7_witness :
    drain probeImpl [Event.keyDown (some (Keycode.otherKey 3))] (0 : Nat) false
      = ⟨probeImpl.key_down_event 0 (Event.keyDown (some (Keycode.otherKey 3))), false,
         [Cb.key_down_event (Event.keyDown (some (Keycode.otherKey 3)))]⟩
    ∧ drain probeImpl [Event.window WindowEventId.resized] (0 : Nat) false
      = ⟨0, false, []⟩ := by
  obtain ⟨-, -, h3, -, -, -, -, -, -, -, h11, -, -, -, -⟩ :=
    c7_amended_taxonomy probeImpl (0 : Nat) (some (Keycode.otherKey 3))
      WindowEventId.resized (by simp) (by simp)
  exact ⟨h3, h11⟩

/-- Claim C8: on any starting batch, a sequence of `add_fragment` calls
appends exactly the added fragments, so `fragments_mut` has one entry per
addition (plus those already present, e.g. the initial fragment of
`TextBatch::new`), indexed in insertion order. -/
theorem c8_fragments_in_insertion_order (tb : TextBatch) (fs : List TextFragment)
    (f : TextFragment) (i : Nat) :
    (TextBatch.addFragments tb fs).fragments_mut = tb.fragments_mut ++ fs
    ∧ (TextBatch.addFragments tb fs).fragments_mut.length
        = tb.fragments_mut.length + fs.length
    ∧ (i < fs.length →
        (TextBatch.addFragments tb fs).fragments_mut[tb.fragments_mut.length + i]?
          = fs[i]?)
    ∧ (TextBatch.addFragments (TextBatch.new f) fs).fragments_mut = f :: fs
    ∧ (TextBatch.addFragments TextBatch.new_empty fs).fragments_mut = fs := by
  have h1 : (TextBatch.addFragments tb fs).fragments_mut = tb.fragments_mut ++ fs := by
    simp [TextBatch.fragments_mut, addFragments_fragments]
  refine ⟨h1, ?_, ?_, ?_, ?_⟩
  · rw [h1]
    simp
  · intro hi
    rw [h1, List.getElem?_append_right (by omega)]
    simp
  · simp [TextBatch.fragments_mut, addFragments_fragments, TextBatch.new,
      TextBatch.new_empty]
  · simp [TextBatch.fragments_mut, addFragments_fragments, TextBatch.new_empty]

/-- Witness for C8 at concrete inputs: adding two fragments to an empty
batch yields length two and finds the second fragment at index one. -/
theorem c8_witness :
    (TextBatch.addFragments TextBatch.new_empty
        [TextFragment.new "A", TextFragment.new "B"]).fragments_mut.length = 0 + 2
    ∧ (TextBatch.addFragments TextBatch.new_empty
        [TextFragment.new "A", TextFragment.new "B"]).fragments_mut[0 + 1]?
      = [TextFragment.new "A", TextFragment.new "B"][1]? := by
  obtain ⟨-, h2, h3, -, -⟩ := c8_fragments_in_insertion_order TextBatch.new_empty
    [TextFragment.new "A", TextFragment.new "B"] (TextFragment.new "A") 1
  exact ⟨h2, h3 (by simp)⟩

/-- Counterexample to C10 as stated: a `load` that mutates the context
through its `&mut` borrow and then fails leaves `reload_state` with a
changed context — the stored context is not unchanged on failure. -/
theorem c10_counterexample :
    mutatingFailLoad g10.context g10.conf
      = ({ data := 7 }, .error (GameError.loadError "nope"))
    ∧ (Game.reload_state mutatingFailLoad g10).1.context ≠ g10.context := by
  constructor
  · rfl
  · simp [Game.reload_state, mutatingFailLoad, g10]

/-- Claim C10 as amended: when `load` (or the factory) fails,
`reload_state` and `replace_state_with` keep the previously installed
state and the stored configuration unchanged and return the error; the
context retains exactly the mutations the callback made through its
mutable borrow before failing. -/
theorem c10_amended_failure_keeps_state_and_conf {σ : Type} (ld : LoadFn σ)
    (g : Game σ) (e : GameError) (ctx2 : Context) :
    (ld g.context g.conf = (ctx2, .error e) →
      Game.reload_state ld g = ({ g with context := ctx2 }, .error e)
      ∧ (Game.reload_state ld g).1.state = g.state
      ∧ (Game.reload_state ld g).1.conf = g.conf)
    ∧ (ld g.context g.conf = (ctx2, .error e) →
      Game.replace_state_with ld g = ({ g with context := ctx2 }, .error e)
      ∧ (Game.replace_state_with ld g).1.state = g.state
      ∧ (Game.replace_state_with ld g).1.conf = g.conf) := by
  constructor
  · intro hld
    simp [Game.reload_state, hld]
  · intro hld
    simp [Game.replace_state_with, hld]

/-- Witness for the amended C10 at concrete inputs: the failing mutating
load leaves state and config untouched in both operations. -/
theorem c10_witness :
    (Game.reload_state mutatingFailLoad g10
        = ({ g10 with context := { data := 7 } }, .error (GameError.loadError "nope"))
      ∧ (Game.reload_state mutatingFailLoad g10).1.state = g10.state
      ∧ (Game.reload_state mutatingFailLoad g10).1.conf = g10.conf)
    ∧ (Game.replace_state_with mutatingFailLoad g10).1.state = g10.state := by
  obtain ⟨h1, h2⟩ := c10_amended_failure_keeps_state_and_conf mutatingFailLoad g10
    (GameError.loadError "nope") { data := 7 }
  exact ⟨h1 rfl, (h2 rfl).2.1⟩
